import Mathlib

/-!
Shallow embedding of the TCP proxy engine of mkloubert/vscode-proxy
(src/proxy.ts, src/helpers.ts, src/contracts.ts), for checking the
natural-language specification against the code.

JavaScript values are modelled as follows: a Buffer is a list of bytes,
a nullable Buffer is an Option of that, thrown exceptions are Except,
and NaN results of parseInt are Option.none.
-/

namespace VsProxy

abbrev JSError := String
abbrev Bytes := List Nat

/-- A JS Buffer-or-null value, as passed through the chunk pipeline. -/
abbrev Chunk := Option Bytes

/-- JS truthiness of a Buffer-or-null value: null and undefined are falsy,
every Buffer object (even an empty one) is truthy. -/
def chunkTruthy : Chunk → Bool
  | none => false
  | some _ => true

/-! ## helpers.ts -/

/-- JS whitespace for the purposes of String.prototype.trim. -/
def jsWhitespace (c : Char) : Bool :=
  c == ' ' || c == '\t' || c == '\n' || c == '\r'

/-- Trim of a character list on both ends. -/
def trimList (cs : List Char) : List Char :=
  ((cs.dropWhile jsWhitespace).reverse.dropWhile jsWhitespace).reverse

/-- JS String.prototype.trim. -/
def jsTrim (s : String) : String := ⟨trimList s.data⟩

/-- JS String.prototype.indexOf(c) > -1 for a single character. -/
def containsChar (s : String) (c : Char) : Bool := s.data.contains c

/-- Value of one digit character. -/
def digitVal (c : Char) : Nat := c.toNat - 48

/-- Numeric value of the longest leading digit run; none when there is no
leading digit (parseInt would give NaN). -/
def parseDigits (cs : List Char) : Option Nat :=
  let ds := cs.takeWhile (fun c => c.isDigit)
  if ds.isEmpty then none
  else some (ds.foldl (fun a c => a * 10 + digitVal c) 0)

/-- JS parseInt on a string: optional sign, then leading decimal digits;
none models NaN. -/
def parseIntJS (s : String) : Option Int :=
  match s.toList with
  | '-' :: rest => (parseDigits rest).map (fun n => -(n : Int))
  | '+' :: rest => (parseDigits rest).map (fun n => (n : Int))
  | cs => (parseDigits cs).map (fun n => (n : Int))

/-- Worker for distinctArray, carrying the already-kept elements. -/
def distinctAux {α : Type} [DecidableEq α] (seen : List α) : List α → List α
  | [] => []
  | x :: xs =>
      if seen.contains x then distinctAux seen xs
      else x :: distinctAux (seen ++ [x]) xs

/-- helpers.ts distinctArray: keeps the element at each position iff its
first occurrence is at that position (arr.indexOf(x) === i). -/
def distinctArray {α : Type} [DecidableEq α] (arr : List α) : List α :=
  distinctAux [] arr

/-- helpers.ts isEmptyString: string representation empty after trim. -/
def isEmptyString (s : String) : Bool := (trimList s.data).isEmpty

/-- A JS primitive as it can appear in the receiveChunksFrom field
(boolean or number). -/
inductive JSVal
  | vBool (b : Bool)
  | vNum (n : Int)
deriving DecidableEq

/-- helpers.ts toStringSafe on the primitives above: booleans print as
"true"/"false", numbers in decimal. -/
def toStringSafeJS : JSVal → String
  | .vBool true => "true"
  | .vBool false => "false"
  | .vNum n => toString n

/-- The configured receiveChunksFrom value
(contracts.ts: boolean | number | number[], possibly absent). -/
inductive RCF
  | undef
  | rbool (b : Bool)
  | rnum (n : Int)
  | rarr (ns : List Int)
deriving DecidableEq

/-- helpers.ts asArray applied to a receiveChunksFrom value: a non-array
value is wrapped in a one-element array. -/
def rcfAsArray : RCF → List JSVal
  | .undef => []
  | .rbool b => [.vBool b]
  | .rnum n => [.vNum n]
  | .rarr ns => ns.map .vNum

/-- The normalized echo-selection value as used by the data handlers:
after proxy.ts start() normalization it is either the literal false or an
array of indices. -/
inductive EchoPolicy
  | noEcho
  | indices (xs : List Int)
deriving DecidableEq

/-- proxy.ts start(), lines 149-163: null/undefined becomes [0]; the
literal false is kept; any other value is wrapped by asArray, each element
run through parseInt(toStringSafe(x).trim()), NaN results filtered out;
an array result is deduplicated with distinctArray. -/
def resolveReceiveChunksFrom (v : RCF) : EchoPolicy :=
  match v with
  | .undef => .indices (distinctArray [0])
  | .rbool false => .noEcho
  | other =>
      .indices (distinctArray ((rcfAsArray other).filterMap
        (fun x => parseIntJS (jsTrim (toStringSafeJS x)))))

/-- proxy.ts lines 317-322: sendBack is toBooleanSafe(receiveChunksFrom)
when the normalized value is not an array (hence the literal false), and
receiveChunksFrom.indexOf(i) > -1 when it is an array. -/
def sendBack (policy : EchoPolicy) (i : Nat) : Bool :=
  match policy with
  | .noEcho => false
  | .indices xs => xs.contains (i : Int)

/-- A configured proxy target (contracts.ts ProxyTarget: string | number). -/
inductive ProxyTarget
  | str (s : String)
  | num (n : Int)
deriving DecidableEq

/-- helpers.ts toStringSafe on a ProxyTarget value. -/
def toStringSafeTarget : ProxyTarget → String
  | .str s => s
  | .num n => toString n

/-- The substring after the last colon (val.substr(val.lastIndexOf(':')+1)). -/
def lastColonSegment (s : String) : String :=
  ⟨(s.data.reverse.takeWhile (fun c => c ≠ ':')).reverse⟩

/-- helpers.ts getPortSafe: parseInt(toStringSafe(val).trim()), with the
default port when the result is NaN; the input port is an Int-or-undefined. -/
def getPortSafe (val : Option Int) (defaultPort : Int) : Int :=
  match parseIntJS (jsTrim (match val with | none => "" | some p => toString p)) with
  | none => defaultPort
  | some p => p

/-- helpers.ts getHostAndPort: parses the port from the segment after the
last colon (or the whole string); the host variable is assigned only in
the isNaN(port) branch, and falls back to 127.0.0.1 when still empty. -/
def getHostAndPort (val : ProxyTarget) (defaultPort : Int) : String × Int :=
  let s := toStringSafeTarget val
  let hp : Option String × Option Int :=
    if ¬ isEmptyString s then
      let port? :=
        if containsChar s ':' then parseIntJS (jsTrim (lastColonSegment s))
        else parseIntJS (jsTrim s)
      match port? with
      | some p => (none, some p)
      | none => (some s, none)
    else (none, none)
  let host :=
    match hp.1 with
    | some h => if isEmptyString h then "127.0.0.1" else h
    | none => "127.0.0.1"
  (host, getPortSafe hp.2 defaultPort)

/-! ## contracts.ts data model -/

/-- contracts.ts SocketAddress. -/
structure SocketAddress where
  addr : String
  port : Nat
deriving DecidableEq

/-- contracts.ts ProxyDestination. -/
inductive ProxyDestination
  | ProxyToTarget
  | TargetToProxy
deriving DecidableEq

/-- contracts.ts TraceEntry (session field handled separately, see
TraceSession below). -/
structure TraceEntry where
  chunk : Chunk
  chunkSend : Bool
  destination : ProxyDestination
  error : Option JSError
  source : SocketAddress
  sourceIndex : Nat
  target : SocketAddress
  targetIndex : Nat
  time : Nat
deriving DecidableEq

/-! ## proxy.ts data handlers -/

/-- The effect of a configured chunk-handler hook on args.chunk: it may
replace the chunk, leave it, set it to null, or throw. -/
abbrev ChunkHook := Chunk → Except JSError Chunk

/-- proxy.ts HANDLE_CHUNK (lines 247-263): without a handler the chunk
passes through unchanged; with a handler the result is the final value of
args.chunk, and an exception from the handler propagates to the caller
(there is no try/catch inside HANDLE_CHUNK). -/
def HANDLE_CHUNK (hook : Option ChunkHook) (chunk : Chunk) : Except JSError Chunk :=
  match hook with
  | none => .ok chunk
  | some h => h chunk

/-- Observable outcome of the client data handler of one session for one
inbound chunk: the trace entries handed to HANDLE_TRACE_ENTRY in order,
the successful target writes (index, bytes), and the errors routed to
HANDLE_ERROR by the per-target catch. -/
structure ClientDataResult where
  entries : List TraceEntry
  writes : List (Nat × Bytes)
  logged : List JSError
deriving DecidableEq

/-- proxy.ts from.on('data') (lines 359-411): for each target index the
body runs in its own try/catch; the chunk variable is shared across the
iterations, so a successful HANDLE_CHUNK result is threaded into the next
iteration while a throwing HANDLE_CHUNK leaves it unchanged and skips the
rest of that iteration (no entry, no write, error logged). A truthy chunk
is written to the target socket, a write exception is caught into err;
a falsy chunk is not written and chunkSend stays false. The trace entry
is built afterwards in either non-throwing case. -/
def clientDataLoop (hook : Option ChunkHook)
    (writeTarget : Nat → Bytes → Except JSError Unit)
    (clientAddr : SocketAddress) (targetAddr : Nat → SocketAddress)
    (now : Nat) : List Nat → Chunk → ClientDataResult
  | [], _ => { entries := [], writes := [], logged := [] }
  | index :: rest, c =>
      match HANDLE_CHUNK hook c with
      | .error e =>
          let r := clientDataLoop hook writeTarget clientAddr targetAddr now rest c
          { r with logged := e :: r.logged }
      | .ok c' =>
          let (err?, chunkSend, wrote?) :=
            match c' with
            | some bytes =>
                (match writeTarget index bytes with
                 | .ok _ => ((none : Option JSError), true, some (index, bytes))
                 | .error e => (some e, false, none))
            | none => (none, false, none)
          let entry : TraceEntry :=
            { chunk := c', chunkSend := chunkSend, destination := .ProxyToTarget,
              error := err?, source := clientAddr, sourceIndex := 0,
              target := targetAddr index, targetIndex := index, time := now }
          let r := clientDataLoop hook writeTarget clientAddr targetAddr now rest c'
          { entries := entry :: r.entries,
            writes := (wrote?.toList) ++ r.writes,
            logged := r.logged }

/-- The client data handler iterates over the targets in declared order
(TOs.forEach with index 0..n-1). -/
def clientDataHandler (hook : Option ChunkHook)
    (writeTarget : Nat → Bytes → Except JSError Unit)
    (clientAddr : SocketAddress) (targetAddr : Nat → SocketAddress)
    (now : Nat) (numTargets : Nat) (chunk0 : Chunk) : ClientDataResult :=
  clientDataLoop hook writeTarget clientAddr targetAddr now
    (List.range numTargets) chunk0

/-- Observable outcome of one data event on a target socket: the trace
entry handed to HANDLE_TRACE_ENTRY (none when the whole body aborted into
the outer catch), the bytes echoed to the client (if any), and the errors
routed to HANDLE_ERROR. -/
structure TargetDataResult where
  entry : Option TraceEntry
  written : Option Bytes
  logged : List JSError
deriving DecidableEq

/-- proxy.ts TO.on('data') (lines 295-356) for the target with index i:
the whole body runs in one try/catch, so a throwing HANDLE_CHUNK aborts
before any trace entry is created. For a truthy chunk, sendBack is
resolved from receiveChunksFrom; a successful echo write sets chunkSend.
The catch around the write is the source line 331 statement e = err,
which never assigns err, so the error field of the entry is always
undefined in this direction. -/
def targetDataHandler (hook : Option ChunkHook)
    (writeClient : Bytes → Except JSError Unit)
    (policy : EchoPolicy) (targetAddr clientAddr : SocketAddress)
    (i : Nat) (now : Nat) (chunk0 : Chunk) : TargetDataResult :=
  match HANDLE_CHUNK hook chunk0 with
  | .error e => { entry := none, written := none, logged := [e] }
  | .ok c' =>
      let (chunkSend, written?) :=
        match c' with
        | some bytes =>
            if sendBack policy i then
              match writeClient bytes with
              | .ok _ => (true, some bytes)
              | .error _ => (false, (none : Option Bytes))
            else (false, none)
        | none => (false, none)
      { entry := some
          { chunk := c', chunkSend := chunkSend, destination := .TargetToProxy,
            error := none, source := targetAddr, sourceIndex := i,
            target := clientAddr, targetIndex := 0, time := now },
        written := written?, logged := [] }

/-! ## proxy.ts instance state and lifecycle -/

/-- The mutable fields of a TcpProxy instance that the lifecycle and
trace operations touch: the listening server handle and the active trace. -/
structure ProxyState where
  server : Option Nat
  trace : Option (List TraceEntry)
deriving DecidableEq

/-- proxy.ts isRunning: truthiness of the server field. -/
def isRunning (s : ProxyState) : Bool := s.server.isSome

/-- proxy.ts isTracing: truthiness of the trace field. -/
def isTracing (s : ProxyState) : Bool := s.trace.isSome

/-- proxy.ts HANDLE_TRACE_ENTRY (lines 202-245), restricted to its effect
on the instance state: the entry is pushed onto the trace array read at
call time when one is active, and dropped otherwise; the output-channel
write and the trace-handler hook do not change the instance fields. -/
def HANDLE_TRACE_ENTRY (s : ProxyState) (e : TraceEntry) : ProxyState :=
  match s.trace with
  | some t => { s with trace := some (t ++ [e]) }
  | none => s

/-- proxy.ts toggleTrace (lines 536-568): when tracing, the current trace
is returned and the field cleared (the trace-writer hook receives it but
does not change the state); when not tracing, a fresh empty trace is
installed and returned. -/
def toggleTrace (s : ProxyState) : List TraceEntry × ProxyState :=
  match s.trace with
  | some t => (t, { s with trace := none })
  | none => ([], { s with trace := some [] })

/-- Settlement of the start()/stop() promise. -/
inductive PromiseOutcome
  | resolved (b : Bool)
  | rejected (e : JSError)
deriving DecidableEq

/-- proxy.ts start (lines 130-438): when a server exists, COMPLETED(null,
false) resolves false and nothing else happens; otherwise the outcome of
configuration resolution plus bind/listen is abstracted as bindResult:
on success the server field is set and the promise resolves true, on a
synchronous throw or a server error event the promise rejects and the
state is unchanged. -/
def start (bindResult : Except JSError Nat) (s : ProxyState) :
    PromiseOutcome × ProxyState :=
  if s.server.isSome then (.resolved false, s)
  else
    match bindResult with
    | .ok srv => (.resolved true, { s with server := some srv })
    | .error e => (.rejected e, s)

/-- proxy.ts stop (lines 445-468): without a server, COMPLETED(null,
false) resolves false and the state is untouched; with a server, close()
succeeding clears the server field and resolves true, while a throwing
close() rejects and leaves the field as it was. -/
def stop (closeResult : Except JSError Unit) (s : ProxyState) :
    PromiseOutcome × ProxyState :=
  match s.server with
  | none => (.resolved false, s)
  | some _ =>
      match closeResult with
      | .ok _ => (.resolved true, { s with server := none })
      | .error e => (.rejected e, s)

/-! ## helpers.ts createSimpleCompletedAction -/

/-- One invocation of the COMPLETED callback: the err argument and the
optional result argument. -/
structure CompletedInvocation where
  err : Option JSError
  result : Option Bool
deriving DecidableEq

/-- How a single invocation settles the promise (reject on truthy err,
resolve with the result otherwise). -/
inductive Settlement
  | resolved (result : Option Bool)
  | rejected (e : JSError)
deriving DecidableEq

/-- State of the closure returned by createSimpleCompletedAction together
with the settlement of the surrounding promise. -/
structure CompletedState where
  completedInvoked : Bool
  settled : Option Settlement
deriving DecidableEq

/-- helpers.ts createSimpleCompletedAction (lines 99-120): a call returns
immediately when completedInvoked is already set; otherwise it sets the
flag and settles the promise from its arguments. -/
def completedStep (st : CompletedState) (inv : CompletedInvocation) : CompletedState :=
  if st.completedInvoked then st
  else
    { completedInvoked := true,
      settled := some
        (match inv.err with
         | some e => .rejected e
         | none => .resolved inv.result) }

/-- The completed action applied to a whole sequence of invocations. -/
def runCompletedAction (invs : List CompletedInvocation) : CompletedState :=
  invs.foldl completedStep { completedInvoked := false, settled := none }

/-- The settlement produced by a single invocation. -/
def settleOf (inv : CompletedInvocation) : Settlement :=
  match inv.err with
  | some e => .rejected e
  | none => .resolved inv.result

/-! ## Session identity (trace grouping) -/

/-- Modelled from the spec: the session id and start time attached to
every TraceEntry of one accepted connection. The repository's contracts
declare a required session field on TraceEntry (with a string id produced
by the uuid package) but the proxy.ts revision under src predates the
code that generates it, so the generation is modelled from the spec:
a unique id (here the accept counter standing in for a random UUID) and a
creation timestamp are produced once per accepted connection. -/
structure TraceSession where
  id : Nat
  time : Nat
deriving DecidableEq

/-- Modelled from the spec: session generation on accept, one per
connection, with the connection number as the unique id. -/
def newSession (connectionNr : Nat) (acceptTime : Nat) : TraceSession :=
  { id := connectionNr, time := acceptTime }

/-- A trace entry together with the session of its connection, as in the
contracts TraceEntry interface. -/
structure SessionTraceEntry where
  session : TraceSession
  entry : TraceEntry
deriving DecidableEq

/-- Modelled from the spec: every entry produced for a connection is
stamped with that connection's session. -/
def sessionEntriesOfConnection (connectionNr acceptTime : Nat)
    (es : List TraceEntry) : List SessionTraceEntry :=
  es.map (fun e => { session := newSession connectionNr acceptTime, entry := e })

/-! ## Helper lemmas -/

/-- Once the completed flag is set, an invocation is ignored. -/
theorem completedStep_of_invoked (st : CompletedState) (inv : CompletedInvocation)
    (h : st.completedInvoked = true) : completedStep st inv = st := by
  simp [completedStep, h]

/-- A whole sequence of invocations is ignored once the flag is set. -/
theorem foldl_completedStep_of_invoked (invs : List CompletedInvocation) :
    ∀ st : CompletedState, st.completedInvoked = true →
      invs.foldl completedStep st = st := by
  induction invs with
  | nil => intro st _; rfl
  | cons inv rest ih =>
      intro st h
      simp only [List.foldl_cons, completedStep_of_invoked st inv h]
      exact ih st h

/-- An entry handed to the recorder while no trace is active leaves the
state untouched. -/
theorem HANDLE_TRACE_ENTRY_inactive (s : ProxyState) (e : TraceEntry)
    (h : s.trace = none) : HANDLE_TRACE_ENTRY s e = s := by
  simp [HANDLE_TRACE_ENTRY, h]

/-- Entries handed to the recorder while no trace is active leave the
state untouched. -/
theorem foldl_HANDLE_TRACE_ENTRY_inactive (ds : List TraceEntry) :
    ∀ s : ProxyState, s.trace = none → ds.foldl HANDLE_TRACE_ENTRY s = s := by
  induction ds with
  | nil => intro s _; rfl
  | cons d rest ih =>
      intro s h
      simp only [List.foldl_cons, HANDLE_TRACE_ENTRY_inactive s d h]
      exact ih s h

/-- Entries handed to the recorder while a trace is active are appended
in order. -/
theorem foldl_HANDLE_TRACE_ENTRY_active (rs : List TraceEntry) :
    ∀ (s : ProxyState) (acc : List TraceEntry), s.trace = some acc →
      (rs.foldl HANDLE_TRACE_ENTRY s).trace = some (acc ++ rs) := by
  induction rs with
  | nil => intro s acc h; simpa using h
  | cons r rest ih =>
      intro s acc h
      simp only [List.foldl_cons]
      have hstep : HANDLE_TRACE_ENTRY s r = { s with trace := some (acc ++ [r]) } := by
        simp [HANDLE_TRACE_ENTRY, h]
      rw [hstep]
      have := ih { s with trace := some (acc ++ [r]) } (acc ++ [r]) rfl
      simpa using this

/-- A client-to-target loop in which the hook throws on the shared chunk
variable produces no entry and no write for any target, and only logs. -/
theorem clientDataLoop_hook_throws (hook : ChunkHook)
    (wt : Nat → Bytes → Except JSError Unit) (ca : SocketAddress)
    (taF : Nat → SocketAddress) (now : Nat) (c : Chunk) (e : JSError)
    (h : hook c = .error e) (is : List Nat) :
    clientDataLoop (some hook) wt ca taF now is c =
      { entries := [], writes := [], logged := List.replicate is.length e } := by
  induction is with
  | nil => rfl
  | cons i rest ih =>
      simp only [clientDataLoop, HANDLE_CHUNK, h, ih, List.length_cons,
        List.replicate_succ]

/-- The trace entry built by the client data handler for a dropped chunk. -/
def droppedFwdEntry (ca : SocketAddress) (taF : Nat → SocketAddress)
    (now : Nat) (i : Nat) : TraceEntry :=
  { chunk := none, chunkSend := false, destination := .ProxyToTarget,
    error := none, source := ca, sourceIndex := 0,
    target := taF i, targetIndex := i, time := now }

/-- A client-to-target loop in which the hook nulls out the chunk (and
keeps a null chunk null) writes nothing and produces one dropped-chunk
entry per target. -/
theorem clientDataLoop_hook_nulls (hook : ChunkHook)
    (wt : Nat → Bytes → Except JSError Unit) (ca : SocketAddress)
    (taF : Nat → SocketAddress) (now : Nat)
    (h2 : hook none = .ok none) (is : List Nat) :
    ∀ c : Chunk, hook c = .ok none →
      clientDataLoop (some hook) wt ca taF now is c =
        { entries := is.map (droppedFwdEntry ca taF now), writes := [],
          logged := [] } := by
  induction is with
  | nil => intro c _; rfl
  | cons i rest ih =>
      intro c h1
      simp only [clientDataLoop, HANDLE_CHUNK, h1, ih none h2, List.map_cons,
        Option.toList, List.nil_append, droppedFwdEntry]

/-! ## Claims -/

/-- C1: start() resolves the echo-selection policy; for the configured
value true the code is expected (by the spec and by the contracts doc
comment on receiveChunksFrom) to echo from every target, but the value
true is pushed through asArray and parseInt(toStringSafe(x)), where
parseInt("true") is NaN, so the resolved index list is empty and no
target ever echoes back. -/
theorem receiveChunksFrom_true_resolves_to_no_indices :
    resolveReceiveChunksFrom (.rbool true) = .indices [] ∧
    (∀ i : Nat, sendBack (resolveReceiveChunksFrom (.rbool true)) i = false) ∧
    resolveReceiveChunksFrom .undef = .indices [0] ∧
    resolveReceiveChunksFrom (.rbool false) = .noEcho ∧
    resolveReceiveChunksFrom (.rarr [2, 0, 2, 1]) = .indices [2, 0, 1] := by
  refine ⟨by decide, ?_, by decide, by decide, by decide⟩
  intro i
  have h : resolveReceiveChunksFrom (.rbool true) = .indices [] := by decide
  rw [h]
  rfl

/-- C2: getHostAndPort resolves a bare integer to loopback with that
port, but for a host:port string the host variable is only assigned in
the NaN branch, so the configured host is discarded and replaced by
127.0.0.1 whenever the port part is numeric. -/
theorem getHostAndPort_discards_host_part :
    getHostAndPort (.str "localhost:8080") 80 = ("127.0.0.1", 8080) ∧
    getHostAndPort (.num 9100) 80 = ("127.0.0.1", 9100) := by
  decide

/-- C3: when the echo write back to the client throws, the trace entry
has chunkSend = false and the handler completes (only the entry hand-off
observes the failure), but the catch in the target-to-client direction
assigns e = err instead of err = e, so the thrown error never reaches the
entry's error field, while the client-to-target direction does record it. -/
theorem echo_write_error_lost_in_trace_entry :
    targetDataHandler none (fun _ => .error "EPIPE") (.indices [0])
        ⟨"10.0.0.8", 9100⟩ ⟨"10.0.0.2", 52000⟩ 0 5 (some [80, 79, 78, 71]) =
      { entry := some
          { chunk := some [80, 79, 78, 71], chunkSend := false,
            destination := .TargetToProxy, error := none,
            source := ⟨"10.0.0.8", 9100⟩, sourceIndex := 0,
            target := ⟨"10.0.0.2", 52000⟩, targetIndex := 0, time := 5 },
        written := none, logged := [] } ∧
    (clientDataHandler none (fun _ _ => .error "ECONNRESET") ⟨"10.0.0.2", 52000⟩
        (fun _ => ⟨"10.0.0.8", 9100⟩) 5 1 (some [1])).entries =
      [{ chunk := some [1], chunkSend := false, destination := .ProxyToTarget,
         error := some "ECONNRESET", source := ⟨"10.0.0.2", 52000⟩,
         sourceIndex := 0, target := ⟨"10.0.0.8", 9100⟩, targetIndex := 0,
         time := 5 }] := by
  decide

/-- C4: every trace entry of one accepted connection carries the session
id and start time generated for that connection, and entries of two
different connections carry different session ids. -/
theorem session_entries_stamped_and_distinct
    (c c' t t' : Nat) (es es' : List TraceEntry) (h : c ≠ c') :
    (∀ x ∈ sessionEntriesOfConnection c t es, x.session = newSession c t) ∧
    (∀ x ∈ sessionEntriesOfConnection c t es,
      ∀ y ∈ sessionEntriesOfConnection c' t' es',
        x.session.id ≠ y.session.id) := by
  constructor
  · intro x hx
    rcases List.mem_map.mp hx with ⟨a, _, rfl⟩
    rfl
  · intro x hx y hy
    rcases List.mem_map.mp hx with ⟨a, _, rfl⟩
    rcases List.mem_map.mp hy with ⟨b, _, rfl⟩
    simpa [newSession] using h

/-- A concrete trace entry used by the closed witnesses. -/
def sampleEntry : TraceEntry :=
  { chunk := some [80, 73, 78, 71], chunkSend := true,
    destination := .ProxyToTarget, error := none,
    source := ⟨"10.0.0.2", 52000⟩, sourceIndex := 0,
    target := ⟨"10.0.0.8", 9100⟩, targetIndex := 0, time := 1 }

/-- A second concrete trace entry used by the closed witnesses. -/
def sampleEntry2 : TraceEntry :=
  { sampleEntry with destination := .TargetToProxy, time := 2 }

/-- Witness for C4 at connections 0 and 1. -/
theorem session_entries_stamped_and_distinct_witness :
    (∀ x ∈ sessionEntriesOfConnection 0 10 [sampleEntry], x.session = newSession 0 10) ∧
    (∀ x ∈ sessionEntriesOfConnection 0 10 [sampleEntry],
      ∀ y ∈ sessionEntriesOfConnection 1 11 [sampleEntry2],
        x.session.id ≠ y.session.id) :=
  session_entries_stamped_and_distinct 0 1 10 11 [sampleEntry] [sampleEntry2]
    (by decide)

/-- C5 counterexample: with a chunk-handler hook that throws, the data
handlers of both directions record no trace entry at all for that chunk,
contrary to the claim that an entry with chunkSend = false is still
recorded. -/
theorem chunk_hook_throw_records_no_entry_cx :
    (clientDataHandler (some (fun _ => .error "boom")) (fun _ _ => .ok ())
        ⟨"10.0.0.2", 52000⟩ (fun _ => ⟨"10.0.0.8", 9100⟩) 5 1
        (some [0])).entries = [] ∧
    (targetDataHandler (some (fun _ => .error "boom")) (fun _ => .ok ())
        (.indices [0]) ⟨"10.0.0.8", 9100⟩ ⟨"10.0.0.2", 52000⟩ 0 5
        (some [0])).entry = none := by
  decide

/-- C5 amended: an exception thrown by the chunk-handler hook is caught
at the data-handler boundary (handed to HANDLE_ERROR, the session keeps
running), nothing is forwarded, and no trace entry is recorded for that
chunk in either direction. -/
theorem chunk_hook_throw_caught_logged_no_entry (hook : ChunkHook)
    (e : JSError) (c : Chunk) (wt : Nat → Bytes → Except JSError Unit)
    (wc : Bytes → Except JSError Unit) (policy : EchoPolicy)
    (ca ta0 : SocketAddress) (taF : Nat → SocketAddress) (now n i : Nat)
    (h : hook c = .error e) :
    (clientDataHandler (some hook) wt ca taF now n c).entries = [] ∧
    (clientDataHandler (some hook) wt ca taF now n c).writes = [] ∧
    (clientDataHandler (some hook) wt ca taF now n c).logged =
      List.replicate n e ∧
    (targetDataHandler (some hook) wc policy ta0 ca i now c).entry = none ∧
    (targetDataHandler (some hook) wc policy ta0 ca i now c).written = none ∧
    (targetDataHandler (some hook) wc policy ta0 ca i now c).logged = [e] := by
  have hloop := clientDataLoop_hook_throws hook wt ca taF now c e h
    (List.range n)
  refine ⟨?_, ?_, ?_, ?_, ?_, ?_⟩ <;>
    simp [clientDataHandler, hloop, targetDataHandler, HANDLE_CHUNK, h]

/-- Witness for C5's amended theorem with a hook that always throws. -/
theorem chunk_hook_throw_caught_logged_no_entry_witness :
    ((fun _ : Chunk => (.error "boom" : Except JSError Chunk)) (some [0]) =
      .error "boom") ∧
    ((clientDataHandler (some (fun _ => .error "boom")) (fun _ _ => .ok ())
        ⟨"10.0.0.2", 52000⟩ (fun _ => ⟨"10.0.0.8", 9100⟩) 5 2
        (some [0])).entries = [] ∧
    (clientDataHandler (some (fun _ => .error "boom")) (fun _ _ => .ok ())
        ⟨"10.0.0.2", 52000⟩ (fun _ => ⟨"10.0.0.8", 9100⟩) 5 2
        (some [0])).writes = [] ∧
    (clientDataHandler (some (fun _ => .error "boom")) (fun _ _ => .ok ())
        ⟨"10.0.0.2", 52000⟩ (fun _ => ⟨"10.0.0.8", 9100⟩) 5 2
        (some [0])).logged = List.replicate 2 "boom" ∧
    (targetDataHandler (some (fun _ => .error "boom")) (fun _ => .ok ())
        (.indices [0]) ⟨"10.0.0.8", 9100⟩ ⟨"10.0.0.2", 52000⟩ 0 5
        (some [0])).entry = none ∧
    (targetDataHandler (some (fun _ => .error "boom")) (fun _ => .ok ())
        (.indices [0]) ⟨"10.0.0.8", 9100⟩ ⟨"10.0.0.2", 52000⟩ 0 5
        (some [0])).written = none ∧
    (targetDataHandler (some (fun _ => .error "boom")) (fun _ => .ok ())
        (.indices [0]) ⟨"10.0.0.8", 9100⟩ ⟨"10.0.0.2", 52000⟩ 0 5
        (some [0])).logged = ["boom"]) :=
  ⟨rfl, chunk_hook_throw_caught_logged_no_entry (fun _ => .error "boom")
    "boom" (some [0]) (fun _ _ => .ok ()) (fun _ => .ok ()) (.indices [0])
    ⟨"10.0.0.2", 52000⟩ ⟨"10.0.0.8", 9100⟩ (fun _ => ⟨"10.0.0.8", 9100⟩)
    5 2 0 rfl⟩

/-- C6: when the chunk-handler hook nulls out the inbound client chunk
(and keeps a null chunk null for the later targets), nothing is written
to any target socket, yet one trace entry with chunkSend = false is still
created and handed to the trace recorder for each target. -/
theorem null_chunk_drops_writes_still_records (hook : ChunkHook) (c : Chunk)
    (wt : Nat → Bytes → Except JSError Unit) (ca : SocketAddress)
    (taF : Nat → SocketAddress) (now n : Nat)
    (h1 : hook c = .ok none) (h2 : hook none = .ok none) :
    (clientDataHandler (some hook) wt ca taF now n c).writes = [] ∧
    (clientDataHandler (some hook) wt ca taF now n c).entries =
      (List.range n).map (droppedFwdEntry ca taF now) ∧
    ∀ entry ∈ (clientDataHandler (some hook) wt ca taF now n c).entries,
      entry.chunkSend = false := by
  have hloop := clientDataLoop_hook_nulls hook wt ca taF now h2
    (List.range n) c h1
  refine ⟨by simp [clientDataHandler, hloop],
          by simp [clientDataHandler, hloop], ?_⟩
  intro entry hmem
  rw [clientDataHandler, hloop] at hmem
  rcases List.mem_map.mp hmem with ⟨i, _, rfl⟩
  rfl

/-- Witness for C6 with two targets and a hook that drops every chunk. -/
theorem null_chunk_drops_writes_still_records_witness :
    ((fun _ : Chunk => (.ok none : Except JSError Chunk)) (some [0, 1]) =
      .ok none) ∧
    ((clientDataHandler (some (fun _ => .ok none)) (fun _ _ => .ok ())
        ⟨"10.0.0.2", 52000⟩ (fun i => ⟨"10.0.0.8", 9100 + i⟩) 5 2
        (some [0, 1])).writes = [] ∧
    (clientDataHandler (some (fun _ => .ok none)) (fun _ _ => .ok ())
        ⟨"10.0.0.2", 52000⟩ (fun i => ⟨"10.0.0.8", 9100 + i⟩) 5 2
        (some [0, 1])).entries =
      (List.range 2).map
        (droppedFwdEntry ⟨"10.0.0.2", 52000⟩ (fun i => ⟨"10.0.0.8", 9100 + i⟩) 5) ∧
    ∀ entry ∈ (clientDataHandler (some (fun _ => .ok none)) (fun _ _ => .ok ())
        ⟨"10.0.0.2", 52000⟩ (fun i => ⟨"10.0.0.8", 9100 + i⟩) 5 2
        (some [0, 1])).entries, entry.chunkSend = false) :=
  ⟨rfl, null_chunk_drops_writes_still_records (fun _ => .ok none)
    (some [0, 1]) (fun _ _ => .ok ()) ⟨"10.0.0.2", 52000⟩
    (fun i => ⟨"10.0.0.8", 9100 + i⟩) 5 2 rfl rfl⟩

/-- C7: an entry is appended to the trace iff a trace is active at
hand-off time; entries arriving after tracing stopped are dropped, not
buffered; and toggling trace off then on detaches the first sequence
unchanged, starts the second one empty, and the second accumulates
exactly the entries recorded after the restart. -/
theorem trace_append_iff_active_toggle_disjoint
    (s : ProxyState) (t : List TraceEntry) (e : TraceEntry)
    (ds rs : List TraceEntry) (h : s.trace = some t) :
    (HANDLE_TRACE_ENTRY s e).trace = some (t ++ [e]) ∧
    (toggleTrace s).1 = t ∧
    ds.foldl HANDLE_TRACE_ENTRY (toggleTrace s).2 = (toggleTrace s).2 ∧
    (toggleTrace ((toggleTrace s).2)).1 = [] ∧
    (rs.foldl HANDLE_TRACE_ENTRY
      (toggleTrace ((toggleTrace s).2)).2).trace = some rs := by
  have htog : toggleTrace s = (t, { s with trace := none }) := by
    simp [toggleTrace, h]
  refine ⟨by simp [HANDLE_TRACE_ENTRY, h], by rw [htog], ?_, ?_, ?_⟩
  · rw [htog]
    exact foldl_HANDLE_TRACE_ENTRY_inactive ds _ rfl
  · rw [htog]
    simp [toggleTrace]
  · rw [htog]
    have : toggleTrace { s with trace := none } =
        ([], { s with trace := some [] }) := by simp [toggleTrace]
    rw [this]
    simpa using foldl_HANDLE_TRACE_ENTRY_active rs
      { s with trace := some [] } [] rfl

/-- Witness for C7 on a concrete tracing state. -/
theorem trace_append_iff_active_toggle_disjoint_witness :
    ((⟨some 7, some [sampleEntry]⟩ : ProxyState).trace = some [sampleEntry]) ∧
    ((HANDLE_TRACE_ENTRY ⟨some 7, some [sampleEntry]⟩ sampleEntry2).trace =
        some ([sampleEntry] ++ [sampleEntry2]) ∧
    (toggleTrace ⟨some 7, some [sampleEntry]⟩).1 = [sampleEntry] ∧
    [sampleEntry2].foldl HANDLE_TRACE_ENTRY
        (toggleTrace ⟨some 7, some [sampleEntry]⟩).2 =
      (toggleTrace ⟨some 7, some [sampleEntry]⟩).2 ∧
    (toggleTrace ((toggleTrace ⟨some 7, some [sampleEntry]⟩).2)).1 = [] ∧
    ([sampleEntry2].foldl HANDLE_TRACE_ENTRY
      (toggleTrace ((toggleTrace ⟨some 7, some [sampleEntry]⟩).2)).2).trace =
      some [sampleEntry2]) :=
  ⟨rfl, trace_append_iff_active_toggle_disjoint ⟨some 7, some [sampleEntry]⟩
    [sampleEntry] sampleEntry2 [sampleEntry2] [sampleEntry2] rfl⟩

/-- C8: start() on a running instance resolves false and leaves the
state (in particular the one listening-socket slot) untouched, whatever
the bind attempt would have produced. -/
theorem start_when_running_soft_fails (bind : Except JSError Nat)
    (s : ProxyState) (h : isRunning s = true) :
    start bind s = (.resolved false, s) := by
  have hs : s.server.isSome = true := h
  simp [start, hs]

/-- Witness for C8 on a concrete running state. -/
theorem start_when_running_soft_fails_witness :
    isRunning ⟨some 7, none⟩ = true ∧
    start (.ok 9) ⟨some 7, none⟩ = (.resolved false, ⟨some 7, none⟩) :=
  ⟨rfl, start_when_running_soft_fails (.ok 9) ⟨some 7, none⟩ rfl⟩

/-- C9: stop() on a non-running instance resolves false without raising
and leaves the state unchanged, and a second stop() reproduces the first
one's result; on any instance whose first stop() closed normally, the
second stop() resolves false and leaves the state of the first. -/
theorem stop_nonrunning_soft_fail_idempotent
    (s s₂ : ProxyState) (cr cr' cr'' : Except JSError Unit)
    (h : isRunning s = false) :
    stop cr s = (.resolved false, s) ∧
    stop cr' (stop cr s).2 = stop cr s ∧
    stop cr'' (stop (.ok ()) s₂).2 = (.resolved false, (stop (.ok ()) s₂).2) := by
  have hs : s.server = none := by
    cases hserver : s.server with
    | none => rfl
    | some srv => rw [isRunning, hserver] at h; simp at h
  have h1 : stop cr s = (.resolved false, s) := by simp [stop, hs]
  refine ⟨h1, by rw [h1]; simp [stop, hs], ?_⟩
  cases hserver : s₂.server with
  | none => simp [stop, hserver]
  | some srv => simp [stop, hserver]

/-- Witness for C9 on a concrete stopped instance and a concrete running
instance. -/
theorem stop_nonrunning_soft_fail_idempotent_witness :
    isRunning ⟨none, none⟩ = false ∧
    (stop (.ok ()) ⟨none, none⟩ = (.resolved false, ⟨none, none⟩) ∧
    stop (.error "x") (stop (.ok ()) ⟨none, none⟩).2 = stop (.ok ()) ⟨none, none⟩ ∧
    stop (.ok ()) (stop (.ok ()) ⟨some 7, none⟩).2 =
      (.resolved false, (stop (.ok ()) ⟨some 7, none⟩).2)) :=
  ⟨rfl, stop_nonrunning_soft_fail_idempotent ⟨none, none⟩ ⟨some 7, none⟩
    (.ok ()) (.error "x") (.ok ()) rfl⟩

/-- C10: the promise completion built by createSimpleCompletedAction is
settled exactly by the first invocation of the callback; every later
invocation, for example a server error event firing after a successful
listen, is ignored. -/
theorem completed_action_settles_at_most_once (inv : CompletedInvocation)
    (rest : List CompletedInvocation) :
    runCompletedAction (inv :: rest) =
      { completedInvoked := true, settled := some (settleOf inv) } := by
  have hfirst : completedStep { completedInvoked := false, settled := none } inv =
      { completedInvoked := true, settled := some (settleOf inv) } := by
    simp [completedStep, settleOf]
  rw [runCompletedAction, List.foldl_cons, hfirst]
  exact foldl_completedStep_of_invoked rest _ rfl

end VsProxy
